import Mathlib

/-!
Door-Safety display client — a shallow embedding.

A shallow embedding of the Door-Safety mobile client (src/src/App.tsx and
the simpler variant in src/unnamed/part_000) and proofs of its specified
properties.

The client keeps a history of detection records, persisted to device
storage, and reacts to inbound WebSocket messages: a decoded payload of
shape `{message: "New image", url}` (with a truthy `url`) prepends a new
record, persists the whole list, updates the displayed image and the
status string.  All other inputs are absorbed without error.

Modelling choices:
* JavaScript values decoded from JSON are an inductive `Json` type with
  the JS truthiness and property-access semantics the handlers rely on.
* A decode attempt (`JSON.parse` on the wire payload) is an
  `Option Json`: `none` is a payload on which `JSON.parse` throws.
* The `AsyncStorage` cell under `@door_safety_history` is a `StoredCell`:
  absent, a read failure, a string on which `JSON.parse` throws, or a
  string that parses back to the serialisation of a history list (the
  only content the program itself ever writes there).
* The asynchronous `Image.getSize` probe is represented by its outcome,
  `Option (Rat × Rat)` — natural (width, height) on success, `none` on
  failure; JS numbers are modelled as rationals.
* Each handler is a total Lean function from state to state: the
  `try/catch` blocks in the source mean no error escapes a handler.
-/

/-- A JavaScript value as produced by `JSON.parse`. -/
inductive Json where
  | null
  | bool (b : Bool)
  | num (n : Rat)
  | str (s : String)
  | arr (elems : List Json)
  | obj (fields : List (String × Json))

/-- JS truthiness: `null`, `false`, `0` and `""` are falsy; every array
and object is truthy. -/
def Json.truthy : Json → Bool
  | .null => false
  | .bool b => b
  | .num n => !(n == 0)
  | .str s => !(s == "")
  | .arr _ => true
  | .obj _ => true

/-- Association lookup used for JS property access on a parsed object. -/
def lookupField : List (String × Json) → String → Option Json
  | [], _ => none
  | (k, v) :: rest, key => if k == key then some v else lookupField rest key

/-- JS property access `data.k`: `some v` when `data` is an object with
field `k`, otherwise `none` (the access yields `undefined`, or throws on
`null` — either way the handler's guard does not fire). -/
def Json.getField : Json → String → Option Json
  | .obj fields, key => lookupField fields key
  | _, _ => none

/-- Truthiness of a possibly-`undefined` JS value: `undefined` is falsy. -/
def truthyOpt : Option Json → Bool
  | some j => j.truthy
  | none => false

/-- The guard `data.message === 'New image'` (App.tsx line 83,
part_000 line 24): strict string equality of the `message` field. -/
def isNewImageMsg (data : Json) : Bool :=
  match data.getField "message" with
  | some (.str s) => s == "New image"
  | _ => false

/-- The full qualifying check `data.message === 'New image' && data.url`. -/
def qualifies (data : Json) : Bool :=
  isNewImageMsg data && truthyOpt (data.getField "url")

/-- One history entry `{url, time}` (App.tsx line 86, part_000 line 33).
The `url` is whatever JS value the payload carried; `time` is the
display-formatted timestamp string. -/
structure DetectionRecord where
  url : Json
  time : String

/-- The `AsyncStorage` cell under `@door_safety_history`.
Here `stored l` stands for a string whose `JSON.parse` yields the
serialisation of the history list `l` — the only content `saveHistory`
ever writes; `malformed` is a string on which `JSON.parse` throws;
`readError` is a `getItem` rejection. -/
inductive StoredCell where
  | absent
  | readError
  | malformed
  | stored (l : List DetectionRecord)

/-- The component state of App.tsx together with the storage cell and the
outbound messages handed to the socket. -/
structure AppState where
  status : String
  imageUri : Option Json
  imageHeight : Rat
  history : List DetectionRecord
  storage : StoredCell
  sent : List Json

/-- The environment a handler invocation runs in: the wall-clock display
string `new Date().toLocaleString()`, the screen width less padding, the
outcome of the `Image.getSize` probe per URI, and whether
`AsyncStorage.setItem` succeeds. -/
structure Env where
  now : String
  screenWidth : Rat
  probe : Json → Option (Rat × Rat)
  persistOk : Bool

/-- The function getDynamicHeight (App.tsx lines 25-39): on probe success resolve
`screenWidth * (height / width)`, on failure resolve the fallback 250. -/
def getDynamicHeight (screenWidth : Rat) : Option (Rat × Rat) → Rat
  | some (w, h) => screenWidth * (h / w)
  | none => 250

/-- The per-row probe of `HistoryImage` (App.tsx lines 165-174): same
scaling on success, fallback height 250 on failure. -/
def historyImageHeight (screenWidth : Rat) : Option (Rat × Rat) → Rat
  | some (w, h) => screenWidth * (h / w)
  | none => 250

/-- The function updateMainImage (App.tsx lines 42-46): set the current image
reference and its probed display height. -/
def updateMainImage (env : Env) (st : AppState) (uri : Json) : AppState :=
  { st with imageUri := some uri,
            imageHeight := getDynamicHeight env.screenWidth (env.probe uri) }

/-- The load effect (App.tsx lines 49-62): read the persisted list; when
present and parseable install it as the in-memory history and, when
non-empty, show its head; a missing cell, a read failure or a parse
failure leaves the state untouched (the `catch` only logs). -/
def load (env : Env) (st : AppState) : AppState :=
  match st.storage with
  | .absent => st
  | .readError => st
  | .malformed => st
  | .stored l =>
      let st1 := { st with history := l }
      match l with
      | [] => st1
      | r :: _ => updateMainImage env st1 r.url

/-- The function saveHistory (App.tsx lines 65-71): overwrite the cell with the
serialised list; a `setItem` failure is caught and only logged, so the
cell keeps its previous content. -/
def saveHistory (env : Env) (st : AppState) (l : List DetectionRecord) : AppState :=
  if env.persistOk then { st with storage := .stored l } else st

/-- The History Store `append` as realised inline in the message handler
(App.tsx lines 86-89): prepend to the in-memory list, then persist the
entire list. -/
def append (env : Env) (r : DetectionRecord) (st : AppState) : AppState :=
  let updated := r :: st.history
  saveHistory env { st with history := updated } updated

/-- The handler ws.onmessage (App.tsx lines 80-95).  `payload` is the decode
attempt on `e.data`; `none` (a throw in `JSON.parse`) falls to the
`catch`, which logs and changes nothing.  On a qualifying payload:
update the main image, prepend `{url, time}`, persist, set the detected
status.  Any other decoded shape is ignored. -/
def onmessage (env : Env) (st : AppState) (payload : Option Json) : AppState :=
  match payload with
  | none => st
  | some data =>
    match data.getField "url" with
    | none => st
    | some u =>
      if isNewImageMsg data && u.truthy then
        let st1 := updateMainImage env st u
        let st2 := append env ⟨u, env.now⟩ st1
        { st2 with status := "Object detected — image received" }
      else st

/-- The outbound control message `{type: "refresh_request"}`
(App.tsx line 111). -/
def refreshRequestMsg : Json := .obj [("type", .str "refresh_request")]

/-- The handler onRefresh (App.tsx lines 104-120): inside one `try`, re-read the
persisted list (installing it when present), then — only if that did not
throw — either send the refresh request over an open socket and set the
requested status, or set the cannot-refresh status.  A `getItem`
rejection or a `JSON.parse` throw jumps to the `catch`, skipping the
socket branch entirely. -/
def onRefresh (wsOpen : Bool) (st : AppState) : AppState :=
  match st.storage with
  | .readError => st
  | .malformed => st
  | .absent =>
      if wsOpen then
        { st with sent := st.sent ++ [refreshRequestMsg],
                  status := "Requested latest image from server..." }
      else
        { st with status := "WebSocket not connected — cannot refresh" }
  | .stored l =>
      let st1 := { st with history := l }
      if wsOpen then
        { st1 with sent := st1.sent ++ [refreshRequestMsg],
                   status := "Requested latest image from server..." }
      else
        { st1 with status := "WebSocket not connected — cannot refresh" }

/-- The initial component state of App.tsx (lines 14-19) over a given
storage-cell content. -/
def initState (c : StoredCell) : AppState :=
  { status := "Disconnected", imageUri := none, imageHeight := 250,
    history := [], storage := c, sent := [] }

/-! ## The simpler variant (src/unnamed/part_000) -/

/-- Component state of the part_000 variant: no persistence, no dynamic
height. -/
structure VState where
  status : String
  imageUri : Option Json
  history : List DetectionRecord

/-- The handler ws.onmessage of the part_000 variant (lines 20-42): same guard; on
a qualifying payload set the image reference and detected status and
prepend `{url, time}`; other shapes are only logged; a `JSON.parse`
throw is caught and logged. -/
def onmessageV (now : String) (st : VState) (payload : Option Json) : VState :=
  match payload with
  | none => st
  | some data =>
    match data.getField "url" with
    | none => st
    | some u =>
      if isNewImageMsg data && u.truthy then
        { status := "Object detected — image received",
          imageUri := some u,
          history := ⟨u, now⟩ :: st.history }
      else st

/-! Shared helper lemmas and concrete fixtures. -/

/-- Any decoded payload failing the qualifying check is absorbed without
any state change, in both variants of the handler. -/
theorem onmessage_not_qualifying (env : Env) (now : String)
    (st : AppState) (vst : VState) (data : Json)
    (h : qualifies data = false) :
    onmessage env st (some data) = st ∧ onmessageV now vst (some data) = vst := by
  have h' : ∀ u, data.getField "url" = some u →
      (isNewImageMsg data && u.truthy) = false := by
    intro u hu
    unfold qualifies at h
    rw [hu] at h
    simpa [truthyOpt] using h
  cases hurl : data.getField "url" with
  | none => exact ⟨by simp [onmessage, hurl], by simp [onmessageV, hurl]⟩
  | some u =>
      exact ⟨by simp [onmessage, hurl, h' u hurl],
             by simp [onmessageV, hurl, h' u hurl]⟩

/-- A concrete environment for witnesses: probe fails, persistence works. -/
def wEnv : Env :=
  { now := "11/10/2026, 12:00:00", screenWidth := 300,
    probe := fun _ => none, persistOk := true }

/-- A concrete environment where persistence fails. -/
def wEnvFail : Env :=
  { now := "11/10/2026, 12:00:00", screenWidth := 300,
    probe := fun _ => none, persistOk := false }

/-- The initial state of the part_000 variant (lines 5-7). -/
def initVState : VState :=
  { status := "No object detected", imageUri := none, history := [] }

/-- A concrete qualifying payload. -/
def newImageData : Json :=
  .obj [("message", .str "New image"), ("url", .str "https://x/a.png")]

/-! Claim theorems. -/

/-- C1: a decoded payload with message "New image" and a (truthy) url
prepends exactly one DetectionRecord with that url and the captured
time — it becomes the first element and the rest of the list is the old
history — persists the updated list, updates the current-image reference
to the url, and sets the detected status.  The part_000 variant prepends
the same record and updates image and status likewise. -/
theorem newImage_prepends_persists_updates
    (env : Env) (st : AppState) (vst : VState) (data u : Json)
    (hmsg : isNewImageMsg data = true)
    (hurl : data.getField "url" = some u)
    (htr : u.truthy = true)
    (hok : env.persistOk = true) :
    (onmessage env st (some data)).history = ⟨u, env.now⟩ :: st.history ∧
    (onmessage env st (some data)).storage = .stored (⟨u, env.now⟩ :: st.history) ∧
    (onmessage env st (some data)).imageUri = some u ∧
    (onmessage env st (some data)).status = "Object detected — image received" ∧
    (onmessageV env.now vst (some data)).history = ⟨u, env.now⟩ :: vst.history ∧
    (onmessageV env.now vst (some data)).imageUri = some u ∧
    (onmessageV env.now vst (some data)).status = "Object detected — image received" := by
  simp [onmessage, onmessageV, hurl, hmsg, htr, append, saveHistory,
    updateMainImage, hok]

/-- Witness for C1: the concrete payload `newImageData` on the empty
initial state. -/
theorem newImage_prepends_persists_updates_witness :
    isNewImageMsg newImageData = true ∧
    newImageData.getField "url" = some (.str "https://x/a.png") ∧
    Json.truthy (.str "https://x/a.png") = true ∧
    wEnv.persistOk = true ∧
    (onmessage wEnv (initState .absent) (some newImageData)).history
      = [⟨.str "https://x/a.png", wEnv.now⟩] :=
  ⟨rfl, rfl, rfl, rfl,
    (newImage_prepends_persists_updates wEnv (initState .absent) initVState
      newImageData (.str "https://x/a.png") rfl rfl rfl rfl).1⟩

/-- C2: a payload on which the JSON decode throws changes nothing — the
HistoryList and the current-image reference (indeed the whole state) are
left untouched, in both variants, and no error escapes. -/
theorem invalidJson_leaves_state_unchanged
    (env : Env) (now : String) (st : AppState) (vst : VState) :
    (onmessage env st none).history = st.history ∧
    (onmessage env st none).imageUri = st.imageUri ∧
    onmessage env st none = st ∧
    onmessageV now vst none = vst :=
  ⟨rfl, rfl, rfl, rfl⟩

/-- C3: append then load round-trips the new record to the head of the
list, provided the persist succeeded. -/
theorem append_then_load_head (env : Env) (r : DetectionRecord) (st : AppState)
    (hok : env.persistOk = true) :
    ((load env (append env r st)).history).head? = some r := by
  simp [append, saveHistory, hok, load, updateMainImage]

/-- Witness for C3 at a concrete record and the empty initial state. -/
theorem append_then_load_head_witness :
    wEnv.persistOk = true ∧
    ((load wEnv (append wEnv ⟨.str "https://x/a.png", "t"⟩
      (initState .absent))).history).head? = some ⟨.str "https://x/a.png", "t"⟩ :=
  ⟨rfl, append_then_load_head wEnv ⟨.str "https://x/a.png", "t"⟩
    (initState .absent) rfl⟩

/-- A concrete state whose storage cell fails to parse, reached with the
socket having delivered nothing yet. -/
def refreshCexState : AppState :=
  { status := "Connected to server", imageUri := none, imageHeight := 250,
    history := [], storage := .malformed, sent := [] }

/-- Counterexample to C4 as stated: when the persisted cell is a string
on which JSON.parse throws, the refresh gesture reaches the catch before
the socket check, so with the connection closed the status is not set to
the cannot-refresh string, and with the connection open no
refresh_request is sent. -/
theorem refresh_cex :
    (onRefresh false refreshCexState).status ≠ "WebSocket not connected — cannot refresh" ∧
    (onRefresh true refreshCexState).sent = [] := by
  exact ⟨by decide, rfl⟩

/-- Whether the stored cell can be read and parsed without throwing. -/
def StoredCell.readable : StoredCell → Bool
  | .readError => false
  | .malformed => false
  | .absent => true
  | .stored _ => true

/-- C4 (amended): provided re-reading the persisted history does not
throw, a refresh gesture with the connection not open sets the
cannot-refresh status and sends nothing, and with the connection open
appends exactly the refresh_request control message and sets the
requested status. -/
theorem refresh_gesture_behavior (st : AppState)
    (h : st.storage.readable = true) :
    (onRefresh false st).status = "WebSocket not connected — cannot refresh" ∧
    (onRefresh false st).sent = st.sent ∧
    (onRefresh true st).sent = st.sent ++ [refreshRequestMsg] ∧
    (onRefresh true st).status = "Requested latest image from server..." := by
  cases hs : st.storage with
  | readError => simp [StoredCell.readable, hs] at h
  | malformed => simp [StoredCell.readable, hs] at h
  | absent => simp [onRefresh, hs]
  | stored l => simp [onRefresh, hs]

/-- Witness for C4 (amended) at the empty initial state. -/
theorem refresh_gesture_behavior_witness :
    (initState .absent).storage.readable = true ∧
    (onRefresh false (initState .absent)).status
      = "WebSocket not connected — cannot refresh" ∧
    (onRefresh true (initState .absent)).sent = [refreshRequestMsg] :=
  ⟨rfl, (refresh_gesture_behavior (initState .absent) rfl).1,
    (refresh_gesture_behavior (initState .absent) rfl).2.2.1⟩

/-- C5: starting from the initial (empty) in-memory list, the load
effect installs the persisted list when it is present and well-formed,
and yields the empty list when the cell is absent or its read or parse
fails — the failure is swallowed (load is a total function). -/
theorem load_startup_history (env : Env) (c : StoredCell) :
    (load env (initState c)).history =
      (match c with | .stored l => l | _ => []) := by
  cases c with
  | stored l => cases l <;> rfl
  | absent => rfl
  | readError => rfl
  | malformed => rfl

/-- C6: a payload that decodes but fails the qualifying check leaves the
whole state — HistoryList, current-image reference and status —
unchanged, in both variants, and raises no error. -/
theorem nonqualifying_payload_ignored (env : Env) (now : String)
    (st : AppState) (vst : VState) (data : Json)
    (h : qualifies data = false) :
    onmessage env st (some data) = st ∧ onmessageV now vst (some data) = vst :=
  onmessage_not_qualifying env now st vst data h

/-- Witness for C6: the concrete payload from Scenario 3. -/
theorem nonqualifying_payload_ignored_witness :
    qualifies (.obj [("message", .str "ping")]) = false ∧
    onmessage wEnv (initState .absent) (some (.obj [("message", .str "ping")]))
      = initState .absent ∧
    onmessageV "t" initVState (some (.obj [("message", .str "ping")]))
      = initVState :=
  ⟨rfl,
    (nonqualifying_payload_ignored wEnv "t" (initState .absent) initVState
      (.obj [("message", .str "ping")]) rfl).1,
    (nonqualifying_payload_ignored wEnv "t" (initState .absent) initVState
      (.obj [("message", .str "ping")]) rfl).2⟩

/-- C7: on probe failure both the main image and each history row fall
back to the fixed height 250 rather than erroring; on success both
compute display height = fixed display width × (natural height /
natural width). -/
theorem probe_height_fallback_and_scale (screenWidth w h : Rat) :
    getDynamicHeight screenWidth none = 250 ∧
    historyImageHeight screenWidth none = 250 ∧
    getDynamicHeight screenWidth (some (w, h)) = screenWidth * (h / w) ∧
    historyImageHeight screenWidth (some (w, h)) = screenWidth * (h / w) :=
  ⟨rfl, rfl, rfl, rfl⟩

/-- C8: the load effect is idempotent on the HistoryList — loading twice
with no intervening append yields the same contents as loading once. -/
theorem load_idempotent (env : Env) (st : AppState) :
    (load env (load env st)).history = (load env st).history := by
  cases hs : st.storage with
  | stored l =>
      cases l with
      | nil => simp [load, hs]
      | cons r rest => simp [load, hs, updateMainImage]
  | absent => simp [load, hs]
  | readError => simp [load, hs]
  | malformed => simp [load, hs]

/-- C9: a payload whose message is "New image" but whose url field is
absent or falsy (empty string, 0, false, null) is ignored exactly like a
non-matching shape, in both variants: the guard tests JS truthiness of
the url, not that it is a string. -/
theorem falsy_url_ignored (env : Env) (now : String)
    (st : AppState) (vst : VState) (data : Json)
    (_hmsg : isNewImageMsg data = true)
    (hurl : truthyOpt (data.getField "url") = false) :
    onmessage env st (some data) = st ∧ onmessageV now vst (some data) = vst := by
  have h : qualifies data = false := by
    unfold qualifies
    rw [hurl, Bool.and_false]
  exact onmessage_not_qualifying env now st vst data h

/-- Witness for C9: message matches but the url is the empty string. -/
theorem falsy_url_ignored_witness :
    isNewImageMsg (.obj [("message", .str "New image"), ("url", .str "")]) = true ∧
    truthyOpt (Json.getField (.obj [("message", .str "New image"), ("url", .str "")]) "url") = false ∧
    onmessage wEnv (initState .absent)
      (some (.obj [("message", .str "New image"), ("url", .str "")]))
      = initState .absent :=
  ⟨rfl, rfl,
    (falsy_url_ignored wEnv "t" (initState .absent) initVState
      (.obj [("message", .str "New image"), ("url", .str "")]) rfl rfl).1⟩

/-- C10: when persisting fails, the error is only logged: the in-memory
HistoryList still holds the newly prepended record at its head, the
status is still set to the detected string, and the storage cell keeps
its previous content (no rollback). -/
theorem persist_failure_keeps_memory_update
    (env : Env) (st : AppState) (data u : Json)
    (hmsg : isNewImageMsg data = true)
    (hurl : data.getField "url" = some u)
    (htr : u.truthy = true)
    (hfail : env.persistOk = false) :
    (onmessage env st (some data)).history = ⟨u, env.now⟩ :: st.history ∧
    (onmessage env st (some data)).status = "Object detected — image received" ∧
    (onmessage env st (some data)).storage = st.storage := by
  simp [onmessage, hurl, hmsg, htr, append, saveHistory, updateMainImage, hfail]

/-- Witness for C10: the qualifying payload with persistence failing on
the empty initial state. -/
theorem persist_failure_keeps_memory_update_witness :
    isNewImageMsg newImageData = true ∧
    newImageData.getField "url" = some (.str "https://x/a.png") ∧
    Json.truthy (.str "https://x/a.png") = true ∧
    wEnvFail.persistOk = false ∧
    (onmessage wEnvFail (initState .absent) (some newImageData)).storage
      = (initState .absent).storage :=
  ⟨rfl, rfl, rfl, rfl,
    (persist_failure_keeps_memory_update wEnvFail (initState .absent)
      newImageData (.str "https://x/a.png") rfl rfl rfl rfl).2.2⟩
